import Mathlib

/-!
# Verification of the order-analytics pipeline

A shallow embedding of the tabular pipeline of `app.py` (enrichment,
filtering, and the aggregation transforms feeding each chart) and of the
connection-configuration logic of `snowflake_query.py`, together with
theorems settling the specification's claims about them.

Tables are lists of order rows; monetary amounts are rationals; dates are
year/month/day triples ordered chronologically.
-/

/-- A calendar date, as produced by `O_ORDERDATE::date`. -/
structure OrderDate where
  year : Int
  month : Int
  day : Int
deriving DecidableEq, Repr

/-- Chronological order on dates (lexicographic on year, month, day),
matching pandas timestamp comparison. -/
def OrderDate.le (a b : OrderDate) : Bool :=
  decide (a.year < b.year) ||
    (decide (a.year = b.year) &&
      (decide (a.month < b.month) ||
        (decide (a.month = b.month) && decide (a.day ≤ b.day))))

/-- One row of the orders table: the five selected columns plus the
`STATUS_LABEL` column added by enrichment (`none` before enrichment). -/
structure Row where
  orderKey : Int
  orderDate : OrderDate
  status : String
  priority : String
  totalPrice : ℚ
  statusLabel : Option String := none
deriving DecidableEq, Repr

instance : Inhabited Row :=
  ⟨{ orderKey := 0, orderDate := ⟨0, 0, 0⟩, status := "", priority := "",
     totalPrice := 0 }⟩

/-- A DataFrame: its rows, plus whether the `STATUS_LABEL` column is part
of the schema (observable even when there are no rows). -/
structure Table where
  rows : List Row
  hasStatusLabel : Bool
deriving DecidableEq, Repr

/-- The empty DataFrame, before enrichment. -/
def emptyTable : Table := { rows := [], hasStatusLabel := false }

instance : Inhabited Table := ⟨emptyTable⟩

/-- `STATUS_LABELS`: the fixed status-code → label dictionary. -/
def STATUS_LABELS : List (String × String) :=
  [("F", "Filled"), ("O", "Open"), ("P", "Pending")]

/-- `df["STATUS"].map(STATUS_LABELS).fillna(df["STATUS"])`: the label a
status code receives; an unmapped code falls back to itself. -/
def statusLabelOf (s : String) : String :=
  match (STATUS_LABELS.lookup s) with
  | some l => l
  | none => s

/-- `enrich_orders`: returns an empty frame unchanged; otherwise copies the
frame and sets the `STATUS_LABEL` column from `STATUS` via
`STATUS_LABELS`, falling back to the raw code. -/
def enrich_orders (df : Table) : Table :=
  if df.rows.isEmpty then df
  else
    { rows := df.rows.map (fun r => { r with statusLabel := some (statusLabelOf r.status) }),
      hasStatusLabel := true }

/-- The row-level predicate of `apply_filters`: the conjunction of the
date-range mask and the (optional) status and priority membership masks. -/
def filterPred (start_date end_date : OrderDate)
    (status_list priority_list : List String) (r : Row) : Bool :=
  (OrderDate.le start_date r.orderDate && OrderDate.le r.orderDate end_date)
    && (status_list.isEmpty || status_list.contains r.status)
    && (priority_list.isEmpty || priority_list.contains r.priority)

/-- `apply_filters`: returns an empty frame unchanged; otherwise keeps the
rows where `ORDER_DATE` is within `[start_date, end_date]` and, when the
status (resp. priority) selection list is non-empty, `STATUS`
(resp. `PRIORITY`) is a member of it. -/
def apply_filters (df : Table) (start_date end_date : OrderDate)
    (status_list priority_list : List String) : Table :=
  if df.rows.isEmpty then df
  else
    { df with
      rows := df.rows.filter (filterPred start_date end_date status_list priority_list) }

/-- pandas linear-interpolation quantile: for sorted values `x_0 … x_{n-1}`
and fraction `q`, the value at virtual index `h = (n-1)·q`, linearly
interpolated between the two neighbouring order statistics. -/
def quantileLinear (xs : List ℚ) (q : ℚ) : ℚ :=
  let s := List.insertionSort (· ≤ ·) xs
  let n := s.length
  if n = 0 then 0
  else
    let h : ℚ := ((n : ℚ) - 1) * q
    let lo : ℕ := (Int.floor h).toNat
    let a := s.getD lo 0
    let b := s.getD (min (lo + 1) (n - 1)) 0
    a + (h - (lo : ℚ)) * (b - a)

/-- Sum of `TOTAL_PRICE` over a row list. -/
def totalRevenue (rows : List Row) : ℚ := (rows.map Row.totalPrice).sum

/-- The numeric outputs of `kpi_section`. -/
structure KPI where
  total_orders : ℕ
  total_amount : ℚ
  avg_order_value : ℚ
  distinct_days : ℕ
  orders_per_day : ℚ
  median_order_value : ℚ
  p90_order_value : ℚ
deriving DecidableEq, Repr

/-- `kpi_section`: the six KPI numbers, each guarded exactly as in the
code (`if not df.empty else 0`, division guarded by a positivity test). -/
def kpi_section (df : Table) : KPI :=
  let total_orders := df.rows.length
  let total_amount : ℚ := if df.rows.isEmpty then 0 else totalRevenue df.rows
  let avg_order_value : ℚ :=
    if total_orders > 0 then total_amount / (total_orders : ℚ) else 0
  let distinct_days : ℕ :=
    if df.rows.isEmpty then 0 else ((df.rows.map Row.orderDate).dedup).length
  let orders_per_day : ℚ :=
    if distinct_days > 0 then (total_orders : ℚ) / (distinct_days : ℚ) else 0
  let median_order_value : ℚ :=
    if df.rows.isEmpty then 0 else quantileLinear (df.rows.map Row.totalPrice) (1/2)
  let p90_order_value : ℚ :=
    if df.rows.isEmpty then 0 else quantileLinear (df.rows.map Row.totalPrice) (9/10)
  { total_orders := total_orders, total_amount := total_amount,
    avg_order_value := avg_order_value, distinct_days := distinct_days,
    orders_per_day := orders_per_day, median_order_value := median_order_value,
    p90_order_value := p90_order_value }

/-- Revenue of the rows belonging to one calendar year. -/
def yearRevenue (rows : List Row) (y : Int) : ℚ :=
  totalRevenue (rows.filter (fun r => decide (r.orderDate.year = y)))

/-- The distinct years present, sorted ascending (`groupby("year")` +
`sort_values("year")`). -/
def distinctYears (rows : List Row) : List Int :=
  List.insertionSort (· ≤ ·) ((rows.map (fun r => r.orderDate.year)).dedup)

/-- `df_year` of `yearly_trend_section`: per distinct year, ascending, the
summed revenue. -/
def yearly_trend (df : Table) : List (Int × ℚ) :=
  (distinctYears df.rows).map (fun y => (y, yearRevenue df.rows y))

/-- Outcome of a float division as pandas produces it: a finite value, or
a signed infinity; NaN is represented by absence (`Option.none`). -/
inductive PFloat where
  | val (q : ℚ)
  | posInf
  | negInf
deriving DecidableEq, Repr

/-- `pct_change * 100` between a previous and a current value, with IEEE
outcomes for a zero denominator: `(cur - prev)/prev * 100` when
`prev ≠ 0`; `±inf` when `prev = 0` and `cur ≠ 0`; NaN (`none`) when both
are 0. -/
def pctChange100 (prev cur : ℚ) : Option PFloat :=
  if prev ≠ 0 then some (.val ((cur - prev) / prev * 100))
  else if cur > 0 then some .posInf
  else if cur < 0 then some .negInf
  else none

/-- `df_yoy`: the year-over-year revenue growth series — per-year
`pct_change() * 100` of the yearly revenue, with the NaN rows removed by
`dropna` (the first year always; also any 0→0 transition). -/
def revenue_yoy (df : Table) : List (Int × PFloat) :=
  let tr := yearly_trend df
  (tr.zip tr.tail).filterMap
    (fun p => (pctChange100 p.1.2 p.2.2).map (fun v => (p.2.1, v)))

/-- `status_cnt` of `distribution_section`: order count per distinct
status, statuses in groupby (sorted) order. -/
def status_cnt (df : Table) : List (String × ℕ) :=
  (List.insertionSort (· ≤ ·) ((df.rows.map Row.status).dedup)).map
    (fun s => (s, (df.rows.filter (fun r => decide (r.status = s))).length))

/-- Row labels of the heatmap pivot: the distinct priorities, sorted. -/
def pivotPriorities (df : Table) : List String :=
  List.insertionSort (· ≤ ·) ((df.rows.map Row.priority).dedup)

/-- Column labels of the heatmap pivot: the distinct statuses, sorted. -/
def pivotStatuses (df : Table) : List String :=
  List.insertionSort (· ≤ ·) ((df.rows.map Row.status).dedup)

/-- One cell of the heatmap pivot: summed `TOTAL_PRICE` for a
(priority, status) pair — 0 when no row matches (`fill_value=0`). -/
def pivotCell (rows : List Row) (p s : String) : ℚ :=
  totalRevenue (rows.filter (fun r => decide (r.priority = p) && decide (r.status = s)))

/-- `pivot_table` of `heatmap_section`: the full priority × status matrix
of summed revenue, missing combinations 0-filled. -/
def heatmap_pivot (df : Table) : List (String × List (String × ℚ)) :=
  (pivotPriorities df).map
    (fun p => (p, (pivotStatuses df).map (fun s => (s, pivotCell df.rows p s))))

/-- Sum over every cell of the heatmap pivot. -/
def heatmapTotal (df : Table) : ℚ :=
  ((heatmap_pivot df).map (fun pr => (pr.2.map Prod.snd).sum)).sum

/-- Modelled from the spec: one step of the fixed-seed pseudo-random
number generator behind `DataFrame.sample(random_state=42)` (the
generator internals live in the pandas/numpy libraries, not in this
repository); a linear congruential generator stands in for it. -/
def lcgNext (s : Nat) : Nat := (1103515245 * s + 12345) % 2147483648

/-- Modelled from the spec: draw `n` rows without replacement from `xs`,
deterministically from the seed state. -/
def sampleAux (seed : Nat) : Nat → List Row → List Row
  | 0, _ => []
  | _ + 1, [] => []
  | n + 1, x :: xs =>
    let s := lcgNext seed
    let i := s % (x :: xs).length
    (x :: xs).getD i default :: sampleAux s n ((x :: xs).eraseIdx i)

/-- `sample_table_section`'s sample:
`df.sample(min(1000, len(df)), random_state=42)` — a pseudo-random sample
of `min(1000, len(df))` rows drawn with the fixed seed 42. -/
def sample_table (df : Table) : List Row :=
  sampleAux 42 (min 1000 df.rows.length) df.rows

/-- The `[snowflake]` section of `st.secrets`, each key possibly absent. -/
structure SecretsSection where
  user : Option String
  password : Option String
  account : Option String
  warehouse : Option String
  database : Option String
  schema : Option String
  role : Option String
deriving DecidableEq, Repr

/-- The configuration sources `_get_connection_params` reads: the
optional `st.secrets["snowflake"]` section, and the process environment
as an association list. -/
structure Config where
  secrets : Option SecretsSection
  env : List (String × String)
deriving DecidableEq, Repr

/-- A Python exception as raised by `_get_connection_params`: a
`KeyError` carrying the missing key, or a `RuntimeError` carrying its
message. -/
inductive PyError where
  | keyError (key : String)
  | runtimeError (msg : String)
deriving DecidableEq, Repr

/-- The Snowflake connection parameters. -/
structure ConnParams where
  user : String
  password : String
  account : String
  warehouse : String
  database : String
  schema : String
  role : String
deriving DecidableEq, Repr

/-- Mandatory subscript access `m[k]`: raises `KeyError(k)` when absent. -/
def getItem (v : Option String) (k : String) : Except PyError String :=
  match v with
  | some x => Except.ok x
  | none => Except.error (PyError.keyError k)

/-- `os.environ[k]` on the association-list environment. -/
def environGet (env : List (String × String)) (k : String) : Except PyError String :=
  match env.lookup k with
  | some v => Except.ok v
  | none => Except.error (PyError.keyError k)

/-- The message of the `RuntimeError` raised in the env-var fallback
branch, naming the missing variable. -/
def missingConfigMsg (missing : String) : String :=
  "Missing Snowflake configuration for " ++ missing ++
    ". Provide it via st.secrets[snowflake] or environment variables."

/-- `_get_connection_params`: prefers the `st.secrets["snowflake"]`
section (mandatory `user`/`password`/`account` subscripts raise
`KeyError` uncaught), else falls back to environment variables, where a
`KeyError` is caught and re-raised as a `RuntimeError` naming the missing
variable. Optional fields default via `.get`/`os.getenv`. -/
def _get_connection_params (cfg : Config) : Except PyError ConnParams :=
  match cfg.secrets with
  | some s =>
    match getItem s.user "user" with
    | Except.error e => Except.error e
    | Except.ok u =>
      match getItem s.password "password" with
      | Except.error e => Except.error e
      | Except.ok pw =>
        match getItem s.account "account" with
        | Except.error e => Except.error e
        | Except.ok a =>
          Except.ok
            { user := u, password := pw, account := a,
              warehouse := s.warehouse.getD "WH_DEMO",
              database := s.database.getD "SNOWFLAKE_SAMPLE_DATA",
              schema := s.schema.getD "TPCH_SF1",
              role := s.role.getD "ACCOUNTADMIN" }
  | none =>
    let attempt : Except PyError ConnParams :=
      match environGet cfg.env "SNOWFLAKE_USER" with
      | Except.error e => Except.error e
      | Except.ok u =>
        match environGet cfg.env "SNOWFLAKE_PASSWORD" with
        | Except.error e => Except.error e
        | Except.ok pw =>
          match environGet cfg.env "SNOWFLAKE_ACCOUNT" with
          | Except.error e => Except.error e
          | Except.ok a =>
            Except.ok
              { user := u, password := pw, account := a,
                warehouse := ((cfg.env.lookup "SNOWFLAKE_WAREHOUSE").getD "WH_DEMO"),
                database := ((cfg.env.lookup "SNOWFLAKE_DATABASE").getD "SNOWFLAKE_SAMPLE_DATA"),
                schema := ((cfg.env.lookup "SNOWFLAKE_SCHEMA").getD "TPCH_SF1"),
                role := ((cfg.env.lookup "SNOWFLAKE_ROLE").getD "ACCOUNTADMIN") }
    match attempt with
    | Except.ok ps => Except.ok ps
    | Except.error (PyError.keyError missing) =>
      Except.error (PyError.runtimeError (missingConfigMsg missing))
    | Except.error e => Except.error e

/-- `run_query`: obtains the connection parameters first; only when that
succeeds does the query execute (the adapter argument stands for
connecting and running the SQL). -/
def run_query (cfg : Config) (adapter : ConnParams → Table) : Except PyError Table :=
  match _get_connection_params cfg with
  | Except.error e => Except.error e
  | Except.ok ps => Except.ok (adapter ps)

/-- The first missing required connection field of a configuration, in
the evaluation order of the source (`none` when all are present). -/
def missingRequiredField (cfg : Config) : Option String :=
  match cfg.secrets with
  | some s =>
    if s.user = none then some "user"
    else if s.password = none then some "password"
    else if s.account = none then some "account"
    else none
  | none =>
    if cfg.env.lookup "SNOWFLAKE_USER" = none then some "SNOWFLAKE_USER"
    else if cfg.env.lookup "SNOWFLAKE_PASSWORD" = none then some "SNOWFLAKE_PASSWORD"
    else if cfg.env.lookup "SNOWFLAKE_ACCOUNT" = none then some "SNOWFLAKE_ACCOUNT"
    else none

/-- An exception names a field when it is the `KeyError`'s key or occurs
verbatim inside the `RuntimeError`'s message. -/
def errorNamesField (e : PyError) (f : String) : Prop :=
  match e with
  | PyError.keyError k => k = f
  | PyError.runtimeError m => ∃ pre post, m = pre ++ f ++ post

/-- A heap of DataFrame objects; a reference is an index, `alloc`
appends. Models which pandas objects the Python functions create or
mutate. -/
abbrev Heap := List Table

/-- Heap-level `enrich_orders`: `return df` on an empty frame (the very
same object); otherwise `df.copy()` plus the column assignment, a fresh
object, the input untouched. -/
def enrichH (σ : Heap) (r : Nat) : Heap × Nat :=
  let t := σ.getD r emptyTable
  if t.rows.isEmpty then (σ, r)
  else (σ ++ [enrich_orders t], σ.length)

/-- Heap-level `apply_filters`: `return df` on an empty frame (the very
same object); otherwise `df[mask].copy()`, a fresh object, the input
untouched. -/
def applyFiltersH (σ : Heap) (r : Nat) (start_date end_date : OrderDate)
    (status_list priority_list : List String) : Heap × Nat :=
  let t := σ.getD r emptyTable
  if t.rows.isEmpty then (σ, r)
  else (σ ++ [apply_filters t start_date end_date status_list priority_list], σ.length)

/-! ## Theorems -/

/-- C1: on the empty order table every numeric KPI field is zero: total
orders, total revenue, average order value (guarded when total orders is
0), distinct active days, orders per active day (guarded when distinct
days is 0), median and 90th-percentile order value; no division by zero
is performed. -/
theorem kpi_section_empty_all_zero (df : Table) (h : df.rows = []) :
    kpi_section df =
      { total_orders := 0, total_amount := 0, avg_order_value := 0,
        distinct_days := 0, orders_per_day := 0, median_order_value := 0,
        p90_order_value := 0 } := by
  cases df with
  | mk rows flag =>
    cases h
    simp [kpi_section]

/-- Witness for C1 at the concrete empty table. -/
theorem kpi_section_empty_all_zero_witness :
    kpi_section emptyTable =
      { total_orders := 0, total_amount := 0, avg_order_value := 0,
        distinct_days := 0, orders_per_day := 0, median_order_value := 0,
        p90_order_value := 0 } :=
  kpi_section_empty_all_zero emptyTable rfl

/-- C9: on an empty input table `enrich_orders` returns the table as-is,
in particular without adding the `STATUS_LABEL` column when it was not
already present, while every non-empty input does get the column. -/
theorem enrich_orders_empty_passthrough :
    (∀ df : Table, df.rows = [] → enrich_orders df = df)
    ∧ (enrich_orders emptyTable).hasStatusLabel = false
    ∧ (∀ df : Table, df.rows ≠ [] → (enrich_orders df).hasStatusLabel = true) := by
  refine ⟨?_, ?_, ?_⟩
  · intro df h
    simp [enrich_orders, h]
  · simp [enrich_orders, emptyTable]
  · intro df h
    simp [enrich_orders, h]

/-- C6: enrichment gives every output row the `statusLabelOf` label of
its status; the mapping is total, sending F/O/P to Filled/Open/Pending
and any other code to itself; the output rows are exactly a per-row
relabelling of the input rows (a pure function of them). -/
theorem enrich_orders_label_mapping (df : Table) :
    (enrich_orders df).rows =
      df.rows.map (fun r => { r with statusLabel := some (statusLabelOf r.status) })
    ∧ (∀ r, r ∈ (enrich_orders df).rows → r.statusLabel = some (statusLabelOf r.status))
    ∧ statusLabelOf "F" = "Filled" ∧ statusLabelOf "O" = "Open"
    ∧ statusLabelOf "P" = "Pending"
    ∧ (∀ s : String, s ≠ "F" → s ≠ "O" → s ≠ "P" → statusLabelOf s = s) := by
  refine ⟨?_, ?_, rfl, rfl, rfl, ?_⟩
  · by_cases h : df.rows.isEmpty
    · rw [List.isEmpty_iff] at h
      simp [enrich_orders, h]
    · simp [enrich_orders, h]
  · intro r hr
    by_cases h : df.rows.isEmpty
    · rw [List.isEmpty_iff] at h
      simp [enrich_orders, h] at hr
    · simp only [enrich_orders, h, if_neg, Bool.false_eq_true, if_false,
        List.mem_map] at hr
      obtain ⟨a, _, rfl⟩ := hr
      rfl
  · intro s h1 h2 h3
    have e1 : (s == "F") = false := beq_eq_false_iff_ne.mpr h1
    have e2 : (s == "O") = false := beq_eq_false_iff_ne.mpr h2
    have e3 : (s == "P") = false := beq_eq_false_iff_ne.mpr h3
    simp [statusLabelOf, STATUS_LABELS, List.lookup, e1, e2, e3]

/-- A one-row table with an unmapped status code, for the C6 witness. -/
def unmappedRowTable : Table :=
  { rows := [{ orderKey := 1, orderDate := ⟨1995, 3, 14⟩, status := "X", priority := "1-URGENT", totalPrice := 10 }],
    hasStatusLabel := false }

/-- Witness for C6 at a concrete table and concrete status codes. -/
theorem enrich_orders_label_mapping_witness :
    (enrich_orders unmappedRowTable).rows.map Row.statusLabel = [some "X"]
    ∧ statusLabelOf "F" = "Filled" := by
  have h := enrich_orders_label_mapping unmappedRowTable
  refine ⟨?_, h.2.2.1⟩
  rw [h.1]
  have hx := h.2.2.2.2.2 "X" (by decide) (by decide) (by decide)
  simp [unmappedRowTable, hx]

/-- The three-order scenario table of the specification (2020-01-05 F
HIGH 100; 2020-02-10 O LOW 200; 2021-01-20 F HIGH 300). -/
def scenarioTable : Table :=
  { rows :=
      [{ orderKey := 1, orderDate := ⟨2020, 1, 5⟩, status := "F", priority := "HIGH", totalPrice := 100 },
       { orderKey := 2, orderDate := ⟨2020, 2, 10⟩, status := "O", priority := "LOW", totalPrice := 200 },
       { orderKey := 3, orderDate := ⟨2021, 1, 20⟩, status := "F", priority := "HIGH", totalPrice := 300 }],
    hasStatusLabel := false }

/-- C2: the Filter Stage keeps exactly the rows whose order date lies in
the inclusive range and whose status/priority belong to the respective
selection when that selection is non-empty; an empty selection imposes no
restriction, and an empty input comes back unchanged (hence empty),
without error. -/
theorem apply_filters_spec (df : Table) (sd ed : OrderDate)
    (ss ps : List String) :
    (∀ r : Row, r ∈ (apply_filters df sd ed ss ps).rows ↔
      r ∈ df.rows
        ∧ (OrderDate.le sd r.orderDate = true ∧ OrderDate.le r.orderDate ed = true)
        ∧ (ss = [] ∨ r.status ∈ ss)
        ∧ (ps = [] ∨ r.priority ∈ ps))
    ∧ (df.rows = [] → apply_filters df sd ed ss ps = df) := by
  constructor
  · intro r
    by_cases h : df.rows.isEmpty
    · rw [List.isEmpty_iff] at h
      simp [apply_filters, h]
    · simp only [apply_filters, h, Bool.false_eq_true, if_false, List.mem_filter]
      rw [List.isEmpty_iff] at h
      constructor
      · rintro ⟨hmem, hpred⟩
        simp only [filterPred, Bool.and_eq_true, Bool.or_eq_true,
          List.isEmpty_iff, List.elem_iff] at hpred
        exact ⟨hmem, hpred.1.1, hpred.1.2, hpred.2⟩
      · rintro ⟨hmem, hdate, hss, hps⟩
        refine ⟨hmem, ?_⟩
        simp only [filterPred, Bool.and_eq_true, Bool.or_eq_true,
          List.isEmpty_iff, List.elem_iff]
        exact ⟨⟨hdate, hss⟩, hps⟩
  · intro h
    simp [apply_filters, h]

/-- Witness for C2 at a concrete three-row table: the status filter
`{"O"}` keeps exactly the matching row, and on the empty table the
filter is the identity. -/
theorem apply_filters_spec_witness :
    ({ orderKey := 2, orderDate := ⟨2020, 2, 10⟩, status := "O", priority := "LOW", totalPrice := 200, statusLabel := none } : Row) ∈
      (apply_filters scenarioTable ⟨2019, 1, 1⟩ ⟨2022, 12, 31⟩ ["O"] []).rows
    ∧ apply_filters emptyTable ⟨2019, 1, 1⟩ ⟨2022, 12, 31⟩ ["O"] [] = emptyTable := by
  constructor
  · exact ((apply_filters_spec scenarioTable ⟨2019, 1, 1⟩ ⟨2022, 12, 31⟩ ["O"] []).1 _).mpr
      (by refine ⟨?_, ⟨?_, ?_⟩, ?_, ?_⟩ <;> simp [scenarioTable, OrderDate.le])
  · exact (apply_filters_spec emptyTable ⟨2019, 1, 1⟩ ⟨2022, 12, 31⟩ ["O"] []).2 rfl

/-- Additional C9 witness: the empty table passes through enrichment
unchanged. -/
theorem enrich_orders_empty_passthrough_witness :
    enrich_orders emptyTable = emptyTable :=
  enrich_orders_empty_passthrough.1 emptyTable rfl

/-- Summing an indicator over a duplicate-free list that contains the
distinguished element yields the indicated value. -/
theorem sum_map_single {M : Type} [AddCommMonoid M] (x : M) :
    ∀ (S : List String), S.Nodup → ∀ a ∈ S,
      (S.map (fun s => if a = s then x else 0)).sum = x := by
  intro S
  induction S with
  | nil => intro _ a ha; simp at ha
  | cons b T ih =>
    intro hnd a ha
    rcases List.mem_cons.mp ha with hab | haT
    · subst hab
      have hnotT : a ∉ T := (List.nodup_cons.mp hnd).1
      have hz : (T.map (fun s => if a = s then x else 0)).sum = 0 := by
        apply List.sum_eq_zero
        intro v hv
        obtain ⟨s, hs, rfl⟩ := List.mem_map.mp hv
        have : a ≠ s := fun h => hnotT (h ▸ hs)
        simp [this]
      simp [hz]
    · have hne : a ≠ b := by
        rintro rfl
        exact (List.nodup_cons.mp hnd).1 haT
      have := ih (List.nodup_cons.mp hnd).2 a haT
      simp [hne, this]

/-- Counts of rows by status over the distinct statuses partition the row
count. -/
theorem count_partition :
    ∀ (rows : List Row) (S : List String), S.Nodup →
      (∀ r ∈ rows, r.status ∈ S) →
      (S.map (fun s => (rows.filter (fun r => decide (r.status = s))).length)).sum
        = rows.length := by
  intro rows
  induction rows with
  | nil => intro S _ _; simp
  | cons r t ih =>
    intro S hS hmem
    have hmap : (S.map (fun s => ((r :: t).filter (fun x => decide (x.status = s))).length)
        = S.map (fun s => (if r.status = s then 1 else 0)
            + (t.filter (fun x => decide (x.status = s))).length)) := by
      apply List.map_congr_left
      intro s _
      by_cases h : r.status = s
      · simp [List.filter_cons, h, Nat.add_comm]
      · simp [List.filter_cons, h]
    rw [hmap, List.sum_map_add, sum_map_single 1 S hS r.status (hmem r (List.mem_cons_self r t)),
      ih S hS (fun x hx => hmem x (List.mem_cons_of_mem r hx))]
    simp [Nat.add_comm]

/-- Sorting a deduplicated list keeps it duplicate-free. -/
theorem nodup_insertionSort_dedup {α : Type} [DecidableEq α]
    (r : α → α → Prop) [DecidableRel r] (l : List α) :
    (List.insertionSort r l.dedup).Nodup :=
  ((List.perm_insertionSort r l.dedup).nodup_iff).mpr (List.nodup_dedup l)

/-- Membership in a sorted deduplicated list is membership in the
original list. -/
theorem mem_insertionSort_dedup {α : Type} [DecidableEq α]
    (r : α → α → Prop) [DecidableRel r] {l : List α} {a : α} :
    a ∈ List.insertionSort r l.dedup ↔ a ∈ l := by
  rw [List.mem_insertionSort, List.mem_dedup]

/-- C5: the per-status order counts of the categorical-distribution
transform sum to the KPI summary's total order count. -/
theorem status_counts_sum_to_total (df : Table) :
    ((status_cnt df).map Prod.snd).sum = (kpi_section df).total_orders := by
  have htot : (kpi_section df).total_orders = df.rows.length := rfl
  rw [htot]
  have hmm : (status_cnt df).map Prod.snd
      = (List.insertionSort (· ≤ ·) ((df.rows.map Row.status).dedup)).map
          (fun s => (df.rows.filter (fun r => decide (r.status = s))).length) := by
    simp [status_cnt, List.map_map]
  rw [hmm]
  exact count_partition df.rows _
    (nodup_insertionSort_dedup _ _)
    (fun r hr => (mem_insertionSort_dedup _).mpr (List.mem_map_of_mem Row.status hr))

/-- Unfolding one row out of a pivot cell: the row contributes its price
exactly when it belongs to the cell. -/
theorem pivotCell_cons (r : Row) (t : List Row) (p s : String) :
    pivotCell (r :: t) p s =
      (if r.priority = p then (if r.status = s then r.totalPrice else 0) else 0)
        + pivotCell t p s := by
  by_cases h1 : r.priority = p
  · by_cases h2 : r.status = s
    · simp [pivotCell, totalRevenue, List.filter_cons, h1, h2]
    · simp [pivotCell, List.filter_cons, h1, h2]
  · simp [pivotCell, List.filter_cons, h1]

/-- Every row lands in exactly one cell of the full priority × status
cross-tabulation, so the cells sum to the total revenue. -/
theorem pivot_sum_eq (P S : List String) (hP : P.Nodup) (hS : S.Nodup) :
    ∀ rows : List Row, (∀ r ∈ rows, r.priority ∈ P ∧ r.status ∈ S) →
      (P.map (fun p => (S.map (fun s => pivotCell rows p s)).sum)).sum
        = totalRevenue rows := by
  intro rows
  induction rows with
  | nil =>
    intro _
    have hz : ∀ v ∈ P.map (fun p => (S.map (fun s => pivotCell ([] : List Row) p s)).sum), v = 0 := by
      intro v hv
      obtain ⟨p, _, rfl⟩ := List.mem_map.mp hv
      apply List.sum_eq_zero
      intro w hw
      obtain ⟨s, _, rfl⟩ := List.mem_map.mp hw
      simp [pivotCell, totalRevenue]
    rw [List.sum_eq_zero hz]
    simp [totalRevenue]
  | cons r t ih =>
    intro hmem
    have hsplit : P.map (fun p => (S.map (fun s => pivotCell (r :: t) p s)).sum)
        = P.map (fun p =>
            (S.map (fun s => if r.priority = p then (if r.status = s then r.totalPrice else 0) else 0)).sum
              + (S.map (fun s => pivotCell t p s)).sum) := by
      apply List.map_congr_left
      intro p _
      rw [← List.sum_map_add]
      apply congrArg
      apply List.map_congr_left
      intro s _
      exact pivotCell_cons r t p s
    rw [hsplit, List.sum_map_add]
    have hone : (P.map (fun p =>
        (S.map (fun s => if r.priority = p then (if r.status = s then r.totalPrice else 0) else 0)).sum)).sum
        = r.totalPrice := by
      have hinner : P.map (fun p =>
          (S.map (fun s => if r.priority = p then (if r.status = s then r.totalPrice else 0) else 0)).sum)
          = P.map (fun p => if r.priority = p then r.totalPrice else 0) := by
        apply List.map_congr_left
        intro p _
        by_cases hp : r.priority = p
        · simp only [hp, if_pos rfl]
          exact sum_map_single r.totalPrice S hS r.status (hmem r (List.mem_cons_self r t)).2
        · simp [hp]
      rw [hinner]
      exact sum_map_single r.totalPrice P hP r.priority (hmem r (List.mem_cons_self r t)).1
    rw [hone, ih (fun x hx => hmem x (List.mem_cons_of_mem r hx))]
    simp [totalRevenue]

/-- The KPI total revenue is the sum of `TOTAL_PRICE` (the empty guard
returns the same 0 the empty sum has). -/
theorem kpi_total_amount_eq (df : Table) :
    (kpi_section df).total_amount = totalRevenue df.rows := by
  by_cases h : df.rows.isEmpty
  · rw [List.isEmpty_iff] at h
    simp [kpi_section, h, totalRevenue]
  · simp [kpi_section, h]

/-- C4: the status × priority revenue matrix is the full cross-tabulation
over the distinct priorities and statuses present, 0-filling missing
combinations, and its cells sum to the KPI summary's total revenue. -/
theorem heatmap_total_matches_kpi_revenue (df : Table) :
    heatmap_pivot df = (pivotPriorities df).map
      (fun p => (p, (pivotStatuses df).map (fun s => (s, pivotCell df.rows p s))))
    ∧ heatmapTotal df = (kpi_section df).total_amount := by
  refine ⟨rfl, ?_⟩
  rw [kpi_total_amount_eq]
  have hshape : heatmapTotal df
      = ((pivotPriorities df).map
          (fun p => ((pivotStatuses df).map (fun s => pivotCell df.rows p s)).sum)).sum := by
    rw [heatmapTotal, heatmap_pivot, List.map_map]
    apply congrArg List.sum
    apply List.map_congr_left
    intro p _
    show ((List.map (fun s => (s, pivotCell df.rows p s)) (pivotStatuses df)).map Prod.snd).sum
      = (List.map (fun s => pivotCell df.rows p s) (pivotStatuses df)).sum
    rw [List.map_map]
    rfl
  rw [hshape]
  exact pivot_sum_eq (pivotPriorities df) (pivotStatuses df)
    (nodup_insertionSort_dedup _ _) (nodup_insertionSort_dedup _ _)
    df.rows
    (fun r hr => ⟨(mem_insertionSort_dedup _).mpr (List.mem_map_of_mem Row.priority hr),
      (mem_insertionSort_dedup _).mpr (List.mem_map_of_mem Row.status hr)⟩)

/-- The distinct years are strictly increasing. -/
theorem sorted_lt_distinctYears (rows : List Row) :
    List.Sorted (· < ·) (distinctYears rows) :=
  (List.sorted_insertionSort _ _).lt_of_le
    (nodup_insertionSort_dedup _ _)

/-- The first components of the yearly trend are the distinct years. -/
theorem yearly_trend_fst (df : Table) :
    (yearly_trend df).map Prod.fst = distinctYears df.rows := by
  rw [yearly_trend, List.map_map]
  exact List.map_id _

/-- `filterMap` over a list where the function never returns `none`
keeps every element. -/
theorem length_filterMap_of_isSome {α β : Type} (f : α → Option β) :
    ∀ l : List α, (∀ a ∈ l, (f a).isSome) → (l.filterMap f).length = l.length := by
  intro l
  induction l with
  | nil => intro _; rfl
  | cons a t ih =>
    intro h
    cases hfa : f a with
    | none =>
      have := h a (List.mem_cons_self a t)
      rw [hfa] at this
      simp at this
    | some b =>
      simp only [List.filterMap_cons, hfa, List.length_cons]
      rw [ih (fun x hx => h x (List.mem_cons_of_mem a hx))]

/-- The percent-change value is defined (not NaN) unless both the
previous and the current value are zero. -/
theorem pctChange100_isSome {a b : ℚ} (h : ¬(a = 0 ∧ b = 0)) :
    (pctChange100 a b).isSome := by
  by_cases ha : a = 0
  · have hb : b ≠ 0 := fun hb => h ⟨ha, hb⟩
    rcases lt_or_gt_of_ne hb with hlt | hgt
    · simp [pctChange100, ha, hlt, not_lt_of_gt hlt]
    · simp [pctChange100, ha, hgt]
  · simp [pctChange100, ha]

/-- C3 (amended): the yearly trend is sorted strictly ascending by year;
every consecutive-year pair with non-zero previous revenue contributes
the growth entry `(rev[y] - rev[y-1]) / rev[y-1] * 100`; the earliest
year never appears in the YoY series; and the series has exactly `N - 1`
entries provided no two consecutive years both have zero revenue (a 0→0
transition is NaN and is dropped by `dropna`). -/
theorem yearly_trend_yoy_spec (df : Table) :
    List.Sorted (· < ·) ((yearly_trend df).map Prod.fst)
    ∧ (∀ p : (Int × ℚ) × (Int × ℚ),
        p ∈ (yearly_trend df).zip (yearly_trend df).tail → p.1.2 ≠ 0 →
          (p.2.1, PFloat.val ((p.2.2 - p.1.2) / p.1.2 * 100)) ∈ revenue_yoy df)
    ∧ (∀ (y0 : Int) (rest : List Int),
        (yearly_trend df).map Prod.fst = y0 :: rest →
          ∀ e ∈ revenue_yoy df, e.1 ≠ y0)
    ∧ ((∀ p : (Int × ℚ) × (Int × ℚ),
          p ∈ (yearly_trend df).zip (yearly_trend df).tail →
            ¬(p.1.2 = 0 ∧ p.2.2 = 0)) →
        (revenue_yoy df).length = (distinctYears df.rows).length - 1) := by
  refine ⟨?_, ?_, ?_, ?_⟩
  · rw [yearly_trend_fst]
    exact sorted_lt_distinctYears df.rows
  · intro p hp hne
    rw [revenue_yoy]
    apply List.mem_filterMap.mpr
    refine ⟨p, hp, ?_⟩
    simp [pctChange100, hne]
  · intro y0 rest hhead e he
    obtain ⟨p, hp, hfp⟩ := List.mem_filterMap.mp he
    obtain ⟨v, _, hev⟩ := Option.map_eq_some'.mp hfp
    have he1 : e.1 = p.2.1 := by rw [← hev]
    obtain ⟨a, b⟩ := p
    have hb : b ∈ (yearly_trend df).tail := (List.of_mem_zip hp).2
    cases htr : yearly_trend df with
    | nil => rw [htr] at hb; simp at hb
    | cons x xs =>
      rw [htr] at hb
      have hb1 : e.1 ∈ rest := by
        rw [htr] at hhead
        simp only [List.map_cons, List.cons.injEq] at hhead
        rw [← hhead.2, he1]
        exact List.mem_map_of_mem Prod.fst hb
      have hsorted : List.Sorted (· < ·) ((yearly_trend df).map Prod.fst) := by
        rw [yearly_trend_fst]
        exact sorted_lt_distinctYears df.rows
      rw [hhead] at hsorted
      have hlt : y0 < e.1 := (List.sorted_cons.mp hsorted).1 e.1 hb1
      exact fun h => absurd (h ▸ hlt) (lt_irrefl _)
  · intro hnz
    rw [revenue_yoy]
    rw [length_filterMap_of_isSome _ _ ?hsome]
    · rw [List.length_zip, List.length_tail]
      have h1 : (yearly_trend df).length = (distinctYears df.rows).length := by
        rw [yearly_trend, List.length_map]
      rw [h1]
      exact min_eq_right (Nat.sub_le _ _)
    · intro p hp
      have hs := pctChange100_isSome (hnz p hp)
      cases h : pctChange100 p.1.2 p.2.2 with
      | none => rw [h] at hs; simp at hs
      | some v => simp [h]

/-- A table whose two years both have zero total revenue, exercising the
0→0 NaN edge of the YoY transform. -/
def zeroRevenueTable : Table :=
  { rows :=
      [{ orderKey := 1, orderDate := ⟨2020, 1, 5⟩, status := "F", priority := "1-URGENT", totalPrice := 0 },
       { orderKey := 2, orderDate := ⟨2021, 1, 5⟩, status := "F", priority := "1-URGENT", totalPrice := 0 }],
    hasStatusLabel := false }

/-- C3 counterexample: on a non-empty table with two distinct years whose
yearly revenues are both zero, the YoY series is empty — not the claimed
`N - 1 = 1` entries. -/
theorem revenue_yoy_not_always_n_minus_one :
    zeroRevenueTable.rows ≠ []
    ∧ (distinctYears zeroRevenueTable.rows).length = 2
    ∧ (revenue_yoy zeroRevenueTable).length = 0
    ∧ (revenue_yoy zeroRevenueTable).length ≠
        (distinctYears zeroRevenueTable.rows).length - 1 := by
  have hyoy : revenue_yoy zeroRevenueTable = [] := by
    norm_num [revenue_yoy, yearly_trend, distinctYears, yearRevenue,
      totalRevenue, zeroRevenueTable, List.dedup, List.insertionSort,
      List.orderedInsert, pctChange100]
  refine ⟨by decide, by decide, by rw [hyoy]; rfl, by rw [hyoy]; decide⟩

/-- A two-year table with non-zero yearly revenues, for the C3 witness. -/
def twoYearTable : Table :=
  { rows :=
      [{ orderKey := 1, orderDate := ⟨2020, 1, 5⟩, status := "F", priority := "HIGH", totalPrice := 100 },
       { orderKey := 2, orderDate := ⟨2021, 1, 20⟩, status := "F", priority := "HIGH", totalPrice := 300 }],
    hasStatusLabel := false }

/-- Witness for C3 (amended) on a concrete two-year table: the YoY
series has exactly one entry. -/
theorem yearly_trend_yoy_spec_witness :
    (revenue_yoy twoYearTable).length = (distinctYears twoYearTable.rows).length - 1 :=
  (yearly_trend_yoy_spec twoYearTable).2.2.2
    (by simp [yearly_trend, distinctYears, yearRevenue, totalRevenue,
      twoYearTable, List.dedup, List.insertionSort, List.orderedInsert])

/-- The sampler never returns more than the requested number of rows. -/
theorem sampleAux_length_le : ∀ (n : Nat) (seed : Nat) (xs : List Row),
    (sampleAux seed n xs).length ≤ n := by
  intro n
  induction n with
  | zero => intro seed xs; cases xs <;> simp [sampleAux]
  | succ m ih =>
    intro seed xs
    cases xs with
    | nil => simp [sampleAux]
    | cons x t =>
      simp only [sampleAux, List.length_cons]
      exact Nat.succ_le_succ (ih _ _)

/-- Every sampled row comes from the input rows. -/
theorem sampleAux_subset : ∀ (n : Nat) (seed : Nat) (xs : List Row),
    ∀ r ∈ sampleAux seed n xs, r ∈ xs := by
  intro n
  induction n with
  | zero => intro seed xs r hr; cases xs <;> simp [sampleAux] at hr
  | succ m ih =>
    intro seed xs r hr
    cases xs with
    | nil => simp [sampleAux] at hr
    | cons x t =>
      simp only [sampleAux] at hr
      rcases List.mem_cons.mp hr with hhead | htail
      · have hlt : lcgNext seed % (x :: t).length < (x :: t).length :=
          Nat.mod_lt _ (by simp)
        rw [hhead, List.getD_eq_getElem _ _ hlt]
        exact List.getElem_mem _
      · exact List.eraseIdx_subset (x :: t) _ (ih _ _ r htail)

/-- C7: the deterministic sample has at most 1000 rows, is drawn from the
input table, and depends only on the input rows (the fixed seed 42 makes
repeated runs on the same table produce the identical sample). -/
theorem sample_table_deterministic (df : Table) :
    (sample_table df).length ≤ 1000
    ∧ (∀ r ∈ sample_table df, r ∈ df.rows)
    ∧ (∀ df2 : Table, df2.rows = df.rows → sample_table df2 = sample_table df) := by
  refine ⟨?_, ?_, ?_⟩
  · exact le_trans (sampleAux_length_le _ _ _) (min_le_left _ _)
  · exact sampleAux_subset _ _ _
  · intro df2 h
    rw [sample_table, sample_table, h]

/-- Witness for C7: two table objects with the same rows produce the
identical sample, and the sample is short enough. -/
theorem sample_table_deterministic_witness :
    sample_table { rows := twoYearTable.rows, hasStatusLabel := true } = sample_table twoYearTable
    ∧ (sample_table twoYearTable).length ≤ 1000 :=
  ⟨(sample_table_deterministic twoYearTable).2.2
      { rows := twoYearTable.rows, hasStatusLabel := true } rfl,
    (sample_table_deterministic twoYearTable).1⟩

/-- C8: whenever a required connection field (user, password, account —
or its environment-variable counterpart) is absent, `run_query` fails
with an error naming the missing field, for every possible query adapter
— i.e. before any query executes, from either configuration source. -/
theorem missing_config_fatal_before_query (cfg : Config) (f : String)
    (h : missingRequiredField cfg = some f) :
    ∃ e : PyError, errorNamesField e f ∧
      ∀ adapter : ConnParams → Table, run_query cfg adapter = Except.error e := by
  cases hs : cfg.secrets with
  | some s =>
    cases hu : s.user with
    | none =>
      simp [missingRequiredField, hs, hu] at h
      subst h
      exact ⟨PyError.keyError "user", rfl,
        fun adapter => by simp [run_query, _get_connection_params, hs, getItem, hu]⟩
    | some u =>
      cases hpw : s.password with
      | none =>
        simp [missingRequiredField, hs, hu, hpw] at h
        subst h
        exact ⟨PyError.keyError "password", rfl,
          fun adapter => by simp [run_query, _get_connection_params, hs, getItem, hu, hpw]⟩
      | some pw =>
        cases ha : s.account with
        | none =>
          simp [missingRequiredField, hs, hu, hpw, ha] at h
          subst h
          exact ⟨PyError.keyError "account", rfl,
            fun adapter => by
              simp [run_query, _get_connection_params, hs, getItem, hu, hpw, ha]⟩
        | some a =>
          simp [missingRequiredField, hs, hu, hpw, ha] at h
  | none =>
    cases hu : cfg.env.lookup "SNOWFLAKE_USER" with
    | none =>
      simp [missingRequiredField, hs, hu] at h
      subst h
      refine ⟨PyError.runtimeError (missingConfigMsg "SNOWFLAKE_USER"),
        ⟨"Missing Snowflake configuration for ",
          ". Provide it via st.secrets[snowflake] or environment variables.", rfl⟩,
        fun adapter => by simp [run_query, _get_connection_params, hs, environGet, hu]⟩
    | some u =>
      cases hpw : cfg.env.lookup "SNOWFLAKE_PASSWORD" with
      | none =>
        simp [missingRequiredField, hs, hu, hpw] at h
        subst h
        refine ⟨PyError.runtimeError (missingConfigMsg "SNOWFLAKE_PASSWORD"),
          ⟨"Missing Snowflake configuration for ",
            ". Provide it via st.secrets[snowflake] or environment variables.", rfl⟩,
          fun adapter => by
            simp [run_query, _get_connection_params, hs, environGet, hu, hpw]⟩
      | some pw =>
        cases ha : cfg.env.lookup "SNOWFLAKE_ACCOUNT" with
        | none =>
          simp [missingRequiredField, hs, hu, hpw, ha] at h
          subst h
          refine ⟨PyError.runtimeError (missingConfigMsg "SNOWFLAKE_ACCOUNT"),
            ⟨"Missing Snowflake configuration for ",
              ". Provide it via st.secrets[snowflake] or environment variables.", rfl⟩,
            fun adapter => by
              simp [run_query, _get_connection_params, hs, environGet, hu, hpw, ha]⟩
        | some a =>
          simp [missingRequiredField, hs, hu, hpw, ha] at h

/-- A configuration with no secrets section and an empty environment. -/
def emptyConfig : Config := { secrets := none, env := [] }

/-- Witness for C8: with nothing configured, every adapter receives a
configuration error naming `SNOWFLAKE_USER` before any query runs. -/
theorem missing_config_fatal_before_query_witness :
    ∃ e : PyError, errorNamesField e "SNOWFLAKE_USER" ∧
      ∀ adapter : ConnParams → Table, run_query emptyConfig adapter = Except.error e :=
  missing_config_fatal_before_query emptyConfig "SNOWFLAKE_USER" rfl

/-- C10 (amended): both stages leave every existing table on the heap —
in particular the caller's input table — unchanged; on a NON-empty input
each returns a fresh object (a new reference holding the filtered or
enriched copy), while on an empty input each returns the input reference
itself, unmutated. -/
theorem stage_frame_spec (σ : Heap) (r : Nat) (sd ed : OrderDate)
    (ss ps : List String) (hr : r < σ.length) :
    (∀ i, i < σ.length →
      (enrichH σ r).1.getD i emptyTable = σ.getD i emptyTable
        ∧ (applyFiltersH σ r sd ed ss ps).1.getD i emptyTable = σ.getD i emptyTable)
    ∧ ((σ.getD r emptyTable).rows ≠ [] →
        ((enrichH σ r).2 ≠ r
          ∧ (enrichH σ r).1.getD (enrichH σ r).2 emptyTable
              = enrich_orders (σ.getD r emptyTable))
        ∧ ((applyFiltersH σ r sd ed ss ps).2 ≠ r
          ∧ (applyFiltersH σ r sd ed ss ps).1.getD (applyFiltersH σ r sd ed ss ps).2 emptyTable
              = apply_filters (σ.getD r emptyTable) sd ed ss ps)) := by
  by_cases ht : (σ.getD r emptyTable).rows.isEmpty
  · constructor
    · intro i _
      constructor
      · simp only [enrichH]
        rw [if_pos ht]
      · simp only [applyFiltersH]
        rw [if_pos ht]
    · intro hne
      rw [List.isEmpty_iff] at ht
      exact absurd ht hne
  · constructor
    · intro i hi
      constructor
      · simp only [enrichH, ht, Bool.false_eq_true, if_false]
        exact List.getD_append _ _ _ _ hi
      · simp only [applyFiltersH, ht, Bool.false_eq_true, if_false]
        exact List.getD_append _ _ _ _ hi
    · intro _
      have hne : σ.length ≠ r := Nat.ne_of_gt hr
      refine ⟨⟨?_, ?_⟩, ?_, ?_⟩
      · simp only [enrichH, ht, Bool.false_eq_true, if_false]
        exact hne
      · simp only [enrichH, ht, Bool.false_eq_true, if_false]
        rw [List.getD_append_right _ _ _ _ (le_refl _), Nat.sub_self]
        rfl
      · simp only [applyFiltersH, ht, Bool.false_eq_true, if_false]
        exact hne
      · simp only [applyFiltersH, ht, Bool.false_eq_true, if_false]
        rw [List.getD_append_right _ _ _ _ (le_refl _), Nat.sub_self]
        rfl

/-- Witness for C10 (amended) on a concrete one-table heap with a
non-empty table: the input slot is untouched and the result is a fresh
reference. -/
theorem stage_frame_spec_witness :
    (enrichH [twoYearTable] 0).1.getD 0 emptyTable = twoYearTable
    ∧ (enrichH [twoYearTable] 0).2 ≠ 0 := by
  have h := stage_frame_spec [twoYearTable] 0 ⟨1992, 1, 1⟩ ⟨1998, 12, 31⟩ [] []
    (by decide)
  refine ⟨(h.1 0 (by decide)).1, ?_⟩
  exact ((h.2 (by simp [twoYearTable])).1).1

/-- C10 counterexample: on the empty table neither stage returns a fresh
copy — each returns the input object itself (the heap is unchanged and
the returned reference is the argument reference). -/
theorem stage_returns_input_on_empty :
    enrichH [emptyTable] 0 = ([emptyTable], 0)
    ∧ applyFiltersH [emptyTable] 0 ⟨1992, 1, 1⟩ ⟨1998, 12, 31⟩ [] [] = ([emptyTable], 0) := by
  constructor <;> rfl
